import Mathlib

/-!
Verification of the authentication subsystem of `x-university-2`
(backend: `app/core/security.py`, `app/models/auth.py`,
`app/services/auth_service.py`, `app/services/two_factor_service.py`,
`app/schemas/auth.py`).

The Python code is shallowly embedded: each service method becomes a pure
Lean function over an explicit database state, timestamps are `Nat` seconds
(UTC wall clock), and `datetime.now(timezone.utc)` becomes an explicit
`now` argument.  External collaborators are modelled by their contracts:

* bcrypt (`hash_password` / `verify_password`): an injective tag
  (`"bcrypt$" ++ plaintext`); `verify` succeeds exactly when the hash of
  the plaintext equals the stored digest, which is the observable contract
  the services rely on.
* PyJWT: a token is its decoded payload plus the signing key; `jwt.decode`
  checks the signature (key equality) and then expiry
  (`ExpiredSignatureError` when `exp <= now`, PyJWT's check with zero
  leeway).  Subject and jti are stored by the source as decimal strings of
  ids (`str(user.id)`, `str(session.id)`) and parsed back with `int(...)`;
  since `int ∘ str` is the identity on naturals the embedding keeps those
  payload fields as `Nat`.
* SQLAlchemy queries become `List.find?` / `List.map` over the state; a
  raised error followed by `rollback()` is an `Except.error` that leaves
  the caller's state unchanged.
-/

namespace XUniv

/-- `AuthError(detail)` from `app/core/security.py` (the HTTP status is
always 401 at this layer and is omitted). -/
structure AuthErr where
  detail : String
deriving DecidableEq, Repr

instance {ε α : Type} [DecidableEq ε] [DecidableEq α] : DecidableEq (Except ε α) := fun x y =>
  match x, y with
  | .error a, .error b =>
    if h : a = b then .isTrue (congrArg Except.error h)
    else .isFalse (fun hc => h (Except.error.inj hc))
  | .ok a, .ok b =>
    if h : a = b then .isTrue (congrArg Except.ok h)
    else .isFalse (fun hc => h (Except.ok.inj hc))
  | .error _, .ok _ => .isFalse (fun hc => Except.noConfusion hc)
  | .ok _, .error _ => .isFalse (fun hc => Except.noConfusion hc)

/-- `UserRole` enum from `app/models/auth.py`. -/
inductive UserRole where
  | student
  | instructor
  | admin
deriving DecidableEq, Repr

/-- `settings.ACCESS_TOKEN_EXPIRES_MINUTES` (app/core/config.py). -/
def accessTokenExpiresMinutes : Nat := 30

/-- `settings.REFRESH_TOKEN_EXPIRES_DAYS` (app/core/config.py). -/
def refreshTokenExpiresDays : Nat := 7

/-- The signing key `settings.SECRET_KEY`, abstracted to a `Nat` tag; only
equality with the server's key matters to `jwt.decode`. -/
def secretKey : Nat := 0

/-- Decoded JWT payload as built by `create_access_token` /
`create_refresh_token` in `app/core/security.py`: fields `exp`, `iat`,
`sub`, `type`, and (for refresh tokens) `jti`.  `sub` and `jti` are decimal
strings of ids in the source and are kept as the underlying naturals here
(see module header). -/
structure TokenPayload where
  exp : Nat
  iat : Nat
  sub : Nat
  type : String
  jti : Option Nat
deriving DecidableEq, Repr

/-- A signed JWT: the payload together with the key it was signed with.
`key = secretKey` models a valid signature; any other value models a token
whose signature check fails. -/
structure Token where
  payload : TokenPayload
  key : Nat
deriving DecidableEq, Repr

/-- `create_access_token(subject, expires_delta)` from
`app/core/security.py`: expiry is `now + expires_delta` when a delta is
given, else `now + ACCESS_TOKEN_EXPIRES_MINUTES` minutes; payload type is
`"access"` and no `jti` is set. -/
def create_access_token (subject : Nat) (expires_delta : Option Nat) (now : Nat) : Token :=
  let expire : Nat :=
    match expires_delta with
    | some d => now + d
    | none => now + accessTokenExpiresMinutes * 60
  { payload := { exp := expire, iat := now, sub := subject, type := "access", jti := none },
    key := secretKey }

/-- `create_refresh_token(subject, jti)` from `app/core/security.py`:
expiry `now + REFRESH_TOKEN_EXPIRES_DAYS` days, type `"refresh"`.  Both
call sites (`create_session`) pass `jti = str(session.id)`, so the random
fallback `secrets.token_urlsafe(32)` is never taken in the repository and
the embedding takes the jti as a required argument. -/
def create_refresh_token (subject : Nat) (jti : Nat) (now : Nat) : Token :=
  { payload := { exp := now + refreshTokenExpiresDays * 86400, iat := now,
                 sub := subject, type := "refresh", jti := some jti },
    key := secretKey }

/-- `decode_token(token)` from `app/core/security.py`: `jwt.decode`
verifies the signature (a `PyJWTError` becomes `AuthError("Invalid
token")`) and expiry (`ExpiredSignatureError`, raised by PyJWT when
`exp <= now` with zero leeway, becomes `AuthError("Token has expired")`). -/
def decode_token (token : Token) (now : Nat) : Except AuthErr TokenPayload :=
  if token.key ≠ secretKey then .error ⟨"Invalid token"⟩
  else if token.payload.exp ≤ now then .error ⟨"Token has expired"⟩
  else .ok token.payload

/-- `verify_token_type(payload, expected_type)` from
`app/core/security.py`. -/
def verify_token_type (payload : TokenPayload) (expected_type : String) : Except AuthErr Unit :=
  if payload.type ≠ expected_type then
    .error ⟨"Invalid token type. Expected " ++ expected_type ++ ", got " ++ payload.type⟩
  else .ok ()

/-- `hash_password` (bcrypt) modelled as an injective tag; see module
header. -/
def hash_password (password : String) : String :=
  "bcrypt$" ++ password

/-- `verify_password(password, hashed_password)`: true exactly when the
plaintext hashes to the stored digest. -/
def verify_password (password : String) (hashed_password : String) : Bool :=
  hash_password password == hashed_password

/-- Injective wire encoding of a token (the JWT compact serialization);
`hash_refresh_token` and `verify_refresh_token` in the source operate on
this string. -/
def encodeToken (t : Token) : String :=
  toString t.key ++ "|" ++ toString t.payload.exp ++ "|" ++ toString t.payload.iat ++ "|" ++
    toString t.payload.sub ++ "|" ++ t.payload.type ++ "|" ++
    (match t.payload.jti with
     | some j => toString j
     | none => "-")

/-- `hash_refresh_token(token)` = `hash_password(token)`
(app/core/security.py). -/
def hash_refresh_token (token : String) : String :=
  hash_password token

/-- `verify_refresh_token(token, hashed_token)` = `verify_password`
(app/core/security.py). -/
def verify_refresh_token (token : String) (hashed_token : String) : Bool :=
  verify_password token hashed_token

/-- The `User` row (`app/models/auth.py`), restricted to the columns the
verified operations read or write.  The 2FA columns are those added by the
`add_2fa_support` migration and used by `two_factor_service.py`. -/
structure User where
  id : Nat
  email : String
  password_hash : String
  full_name : String
  role : UserRole
  is_active : Bool
  failed_login_attempts : Nat
  locked_until : Option Nat
  last_login : Option Nat
  totp_secret : Option String
  two_factor_enabled : Bool
  backup_codes_generated_at : Option Nat
deriving DecidableEq, Repr

/-- `User.is_locked` property: `if self.locked_until: return now <
self.locked_until; return False` (a non-null datetime is always truthy). -/
def User.is_locked (u : User) (now : Nat) : Bool :=
  match u.locked_until with
  | some t => decide (now < t)
  | none => false

/-- `User.increment_failed_login_attempts`: increment the counter, and when
the new count is `>= 5` set `locked_until = now + 30 minutes`. -/
def User.increment_failed_login_attempts (u : User) (now : Nat) : User :=
  let u' := { u with failed_login_attempts := u.failed_login_attempts + 1 }
  if u'.failed_login_attempts ≥ 5 then
    { u' with locked_until := some (now + 30 * 60) }
  else u'

/-- `User.reset_failed_login_attempts`: counter to 0, lock cleared. -/
def User.reset_failed_login_attempts (u : User) : User :=
  { u with failed_login_attempts := 0, locked_until := none }

/-- The `Session` row (`app/models/auth.py`). -/
structure Session where
  id : Nat
  user_id : Nat
  refresh_token_hash : String
  user_agent : Option String
  ip_address : Option String
  expires_at : Nat
  is_active : Bool
  revoked_at : Option Nat
deriving DecidableEq, Repr

/-- `Session.is_expired` property: `datetime.now(timezone.utc) >
self.expires_at`. -/
def Session.is_expired (s : Session) (now : Nat) : Bool :=
  decide (s.expires_at < now)

/-- `Session.is_valid` property: `self.is_active and not self.is_expired
and not self.revoked_at` (a non-null `revoked_at` datetime is truthy). -/
def Session.is_valid (s : Session) (now : Nat) : Bool :=
  s.is_active && !(s.is_expired now) && s.revoked_at == none

/-- `user_recovery_codes` row (`user_id, code_hash, used_at, created_at`),
per the spec's persisted-state layout and the `UserRecoveryCode` stub in
`two_factor_service.py`. -/
structure RecoveryCode where
  user_id : Nat
  code_hash : String
  used_at : Option Nat
  created_at : Nat
deriving DecidableEq, Repr

/-- The relevant database state: the `users` and `sessions` tables, the
`user_recovery_codes` table, and the autoincrement counters for the two
integer primary keys. -/
structure Db where
  users : List User
  sessions : List Session
  recovery_codes : List RecoveryCode
  nextUserId : Nat
  nextSessionId : Nat
deriving DecidableEq, Repr

/-- A lowercase map over a string (`str.lower()` for the ASCII range,
which is what `Char.toLower` implements). -/
def strLower (s : String) : String :=
  ⟨s.data.map Char.toLower⟩

/-- `str.strip()` on the default whitespace set. -/
def trimChars (l : List Char) : List Char :=
  ((l.dropWhile Char.isWhitespace).reverse.dropWhile Char.isWhitespace).reverse

/-- `str.strip()` as a `String` operation. -/
def strTrim (s : String) : String :=
  ⟨trimChars s.data⟩

/-- `AuthService.get_user_by_email`: `select(User).where(User.email ==
email.lower())`, first match. -/
def get_user_by_email (db : Db) (email : String) : Option User :=
  db.users.find? (fun u => u.email == strLower email)

/-- `AuthService.get_user_by_id`. -/
def get_user_by_id (db : Db) (user_id : Nat) : Option User :=
  db.users.find? (fun u => u.id == user_id)

/-- Write back a mutated `User` row (the ORM flushes attribute assignments
to the row with the same primary key). -/
def updateUser (db : Db) (u' : User) : Db :=
  { db with users := db.users.map (fun u => if u.id == u'.id then u' else u) }

/-- Write back a mutated `Session` row. -/
def updateSession (db : Db) (s' : Session) : Db :=
  { db with sessions := db.sessions.map (fun s => if s.id == s'.id then s' else s) }

/-- `AuthService.create_session`: insert a session row with the
placeholder hash `"temp"` to obtain its autoincrement id, mint the refresh
token with `jti = str(session.id)`, then overwrite the row's hash with
`hash_refresh_token(refresh_token)`; expiry is `now +
REFRESH_TOKEN_EXPIRES_DAYS` days.  Returns the new state, the session row
and the plaintext refresh token. -/
def create_session (db : Db) (user_id : Nat) (user_agent ip_address : Option String)
    (now : Nat) : Db × Session × Token :=
  let sid := db.nextSessionId
  let s0 : Session :=
    { id := sid, user_id := user_id, refresh_token_hash := "temp",
      user_agent := user_agent, ip_address := ip_address,
      expires_at := now + refreshTokenExpiresDays * 86400,
      is_active := true, revoked_at := none }
  let refresh_token := create_refresh_token user_id sid now
  let s1 := { s0 with refresh_token_hash := hash_refresh_token (encodeToken refresh_token) }
  ({ db with sessions := db.sessions ++ [s1], nextSessionId := sid + 1 }, s1, refresh_token)

/-- Validated registration payload (`UserRegisterRequest` in
`app/schemas/auth.py`) before the field validators run. -/
structure UserRegisterRequest where
  email : String
  password : String
  full_name : String
  role : UserRole
deriving DecidableEq, Repr

/-- The `validate_email` field validator: `v.lower().strip()`. -/
def normalize_email (v : String) : String :=
  strTrim (strLower v)

/-- The pydantic-validated request as the service receives it: the email
field has been normalized by `validate_email`. -/
def validatedRequest (r : UserRegisterRequest) : UserRegisterRequest :=
  { r with email := normalize_email r.email }

/-- `AuthService.register_user` over a validated request.  The SELECT
pre-check and the INSERT can race under concurrency, so the embedding
separates the snapshot the pre-check reads (`precheck`) from the
authoritative state at commit time (`db`): when the pre-check misses but a
row with the same email already exists, the `users.email` uniqueness
constraint raises `IntegrityError`, which the source catches, rolls back,
and translates to `AuthError("Email already registered")` — the same error
as the pre-check hit.  A sequential call passes `precheck = db.users`.
On success the user row and its initial session are committed together. -/
def register_user (precheck : List User) (db : Db) (r : UserRegisterRequest)
    (user_agent ip_address : Option String) (now : Nat) :
    Except AuthErr (Db × User × Token × Token) :=
  match precheck.find? (fun u => u.email == strLower r.email) with
  | some _ => .error ⟨"Email already registered"⟩
  | none =>
    if db.users.any (fun u => u.email == r.email) then
      .error ⟨"Email already registered"⟩
    else
      let uid := db.nextUserId
      let user : User :=
        { id := uid, email := r.email, password_hash := hash_password r.password,
          full_name := r.full_name, role := r.role, is_active := true,
          failed_login_attempts := 0, locked_until := none, last_login := none,
          totp_secret := none, two_factor_enabled := false,
          backup_codes_generated_at := none }
      let db1 := { db with users := db.users ++ [user], nextUserId := uid + 1 }
      let created := create_session db1 uid user_agent ip_address now
      let access_token := create_access_token uid none now
      .ok (created.1, user, access_token, created.2.2)

/-- `AuthService.login_user`: look the user up by lowercased email, verify
the password, check `is_active`, stamp `last_login`, create a session and
mint tokens.  The method contains no `is_locked` check and never calls
`increment_failed_login_attempts` or `reset_failed_login_attempts`; a
wrong password raises `AuthError("Invalid credentials")` and the
transaction is rolled back, leaving the state unchanged. -/
def login_user (db : Db) (email password : String) (user_agent ip_address : Option String)
    (now : Nat) : Except AuthErr (Db × User × Token × Token) :=
  match get_user_by_email db email with
  | none => .error ⟨"Invalid credentials"⟩
  | some user =>
    if ¬ verify_password password user.password_hash then .error ⟨"Invalid credentials"⟩
    else if ¬ user.is_active then .error ⟨"Account is deactivated"⟩
    else
      let user' := { user with last_login := some now }
      let db1 := updateUser db user'
      let created := create_session db1 user.id user_agent ip_address now
      let access_token := create_access_token user.id none now
      .ok (created.1, user', access_token, created.2.2)

/-- The state after a login call, with errors rolled back
(`self.db.rollback()` on every raise in `login_user`). -/
def afterLogin (db : Db) (email password : String) (user_agent ip_address : Option String)
    (now : Nat) : Db :=
  match login_user db email password user_agent ip_address now with
  | .ok (db', _, _, _) => db'
  | .error _ => db

/-- The state after a registration call, with errors rolled back. -/
def afterRegister (precheck : List User) (db : Db) (r : UserRegisterRequest)
    (user_agent ip_address : Option String) (now : Nat) : Db :=
  match register_user precheck db r user_agent ip_address now with
  | .ok (db', _, _, _) => db'
  | .error _ => db

/-- Session-metadata refresh performed by `refresh_access_token`: user
agent and IP are overwritten only when the caller supplied them. -/
def updMeta (s : Session) (user_agent ip_address : Option String) : Session :=
  { s with
    user_agent := match user_agent with
      | some ua => some ua
      | none => s.user_agent,
    ip_address := match ip_address with
      | some ip => some ip
      | none => s.ip_address }

/-- `AuthService.refresh_access_token`: decode, require type `"refresh"`,
read `sub` and `jti`, select the active session with that id for that
user, reject expired sessions and hash mismatches with
`AuthError("Invalid refresh token")`, require the owning user active,
update session metadata, and mint a new access token.  The refresh token
and the stored hash are not rotated.  (A token whose `jti` claim is
missing makes the source build `where(..., None)`, which raises inside the
generic handler and surfaces as `AuthError("Token refresh failed")`.) -/
def refresh_access_token (db : Db) (token : Token) (user_agent ip_address : Option String)
    (now : Nat) : Except AuthErr (Db × Token) :=
  match decode_token token now with
  | .error e => .error e
  | .ok payload =>
    match verify_token_type payload "refresh" with
    | .error e => .error e
    | .ok _ =>
      let user_id := payload.sub
      match payload.jti with
      | none => .error ⟨"Token refresh failed"⟩
      | some jti =>
        match db.sessions.find? (fun s => s.user_id == user_id && s.id == jti && s.is_active) with
        | none => .error ⟨"Invalid refresh token"⟩
        | some session =>
          if session.is_expired now then .error ⟨"Invalid refresh token"⟩
          else if ¬ verify_refresh_token (encodeToken token) session.refresh_token_hash then
            .error ⟨"Invalid refresh token"⟩
          else
            match get_user_by_id db user_id with
            | none => .error ⟨"User not found or inactive"⟩
            | some user =>
              if ¬ user.is_active then .error ⟨"User not found or inactive"⟩
              else
                let session' := updMeta session user_agent ip_address
                .ok (updateSession db session', create_access_token user_id none now)

/-- Substring test (`word in s` in Python): `needle` occurs contiguously
in the haystack. -/
def listContains (needle : List Char) : List Char → Bool
  | [] => needle.isEmpty
  | c :: rest => needle.isPrefixOf (c :: rest) || listContains needle rest

/-- A window of four identical consecutive characters exists (the `for i
in range(len(v) - 3): if len(set(v[i:i+4])) == 1` loop of the password
validator). -/
def hasRun4 : List Char → Bool
  | a :: b :: c :: d :: rest => (a == b && b == c && c == d) || hasRun4 (b :: c :: d :: rest)
  | _ => false

/-- The banned-substring list of `validate_password`. -/
def common_substrings : List String :=
  ["password", "admin", "user", "login", "qwerty"]

/-- The exact-match common-password list of `validate_password`. -/
def common_passwords : List String :=
  ["123456789", "12345678", "1234567", "123456"]

/-- The `validate_password` field validator of `UserRegisterRequest`
(app/schemas/auth.py), as the predicate "no check raises": minimum length,
the four character classes, no banned substring of the lowercased
password, not a listed common password, and no window of four identical
consecutive characters. -/
def validate_password (v : String) : Bool :=
  8 ≤ v.length &&
  v.data.any Char.isUpper &&
  v.data.any Char.isLower &&
  v.data.any Char.isDigit &&
  v.data.any (fun c => !c.isAlphanum) &&
  !(common_substrings.any (fun w => listContains w.data (strLower v).data)) &&
  !(common_passwords.any (fun w => strLower v == w)) &&
  !(hasRun4 v.data)

/-- The full password gate on registration: the pydantic field constraint
`Field(..., min_length=8, max_length=128)` composed with
`validate_password`. -/
def passwordAccepted (v : String) : Bool :=
  8 ≤ v.length && v.length ≤ 128 && validate_password v

/-- `TwoFactorService.verify_backup_code` (two_factor_service.py): the body
is a TODO stub — backup codes are never persisted, so it logs a warning
and returns `False` for every input. -/
def verify_backup_code (_db : Db) (_user_id : Nat) (_backup_code : String) : Bool :=
  false

/-- `TwoFactorService.complete_2fa_setup`.  The pyotp TOTP check is an
external collaborator and enters as the boolean `totpOk`; the ten random
backup codes generated by `generate_backup_codes` enter as `codes`.  On
success the user row gets `two_factor_enabled = true` and
`backup_codes_generated_at = now`, and the codes are returned to the
caller — but (source TODO) no `user_recovery_codes` rows are written, so
`db.recovery_codes` is left untouched. -/
def complete_2fa_setup (db : Db) (user_id : Nat) (totpOk : Bool) (codes : List String)
    (now : Nat) : Except String (Db × List String) :=
  match get_user_by_id db user_id with
  | none => .error "User not found"
  | some user =>
    match user.totp_secret with
    | none => .error "2FA setup not initialized. Please start setup first."
    | some _ =>
      if user.two_factor_enabled then .error "2FA is already enabled for this user"
      else if ¬ totpOk then .error "Invalid TOTP code. Please check your authenticator app."
      else
        let user' := { user with two_factor_enabled := true,
                                 backup_codes_generated_at := some now }
        .ok (updateUser db user', codes)

/-! ## Theorems -/

/-- A session at the exact expiry instant: active, unrevoked, with
`expires_at = 100`, observed at `now = 100`. -/
def boundarySession : Session :=
  { id := 1, user_id := 1, refresh_token_hash := "h", user_agent := none,
    ip_address := none, expires_at := 100, is_active := true, revoked_at := none }

/-- C4 counterexample: at `now = expires_at` the code's `is_valid` is
`true` (`is_expired` is `now > expires_at`, strict), but the claimed
equivalence requires `now < expires_at`, which fails — so the claimed
biconditional is false at this session. -/
theorem c4_is_valid_counterexample :
    ¬ (boundarySession.is_valid 100 = true ↔
        (boundarySession.is_active = true ∧ 100 < boundarySession.expires_at ∧
         boundarySession.revoked_at = none)) := by
  decide

/-- C4 amended: for every session and time, `is_valid` holds iff the
session is active, `now ≤ expires_at` (non-strict: the session is still
valid at the expiry instant), and `revoked_at` is null. -/
theorem c4_is_valid_characterization (s : Session) (now : Nat) :
    s.is_valid now = true ↔
      (s.is_active = true ∧ now ≤ s.expires_at ∧ s.revoked_at = none) := by
  simp [Session.is_valid, Session.is_expired, Nat.not_lt, and_assoc]

/-- C6: `recordFailure` increments the counter by one and sets
`locked_until = now + 30 minutes` when the new count reaches 5;
`recordSuccess` zeroes the counter and clears the lock; and `isLocked`
holds exactly when `locked_until` is non-null and strictly in the
future. -/
theorem c6_lockout_policy (u : User) (now : Nat) :
    (u.increment_failed_login_attempts now).failed_login_attempts =
      u.failed_login_attempts + 1
  ∧ (u.failed_login_attempts + 1 = 5 →
      (u.increment_failed_login_attempts now).locked_until = some (now + 30 * 60))
  ∧ u.reset_failed_login_attempts.failed_login_attempts = 0
  ∧ u.reset_failed_login_attempts.locked_until = none
  ∧ (u.is_locked now = true ↔ ∃ t, u.locked_until = some t ∧ now < t) := by
  refine ⟨?_, ?_, rfl, rfl, ?_⟩
  · simp only [User.increment_failed_login_attempts]
    split <;> rfl
  · intro h
    simp only [User.increment_failed_login_attempts]
    rw [if_pos (by omega)]
  · unfold User.is_locked
    cases u.locked_until <;> simp

/-- A user one failure away from the lockout threshold. -/
def nearThresholdUser : User :=
  { id := 1, email := "locktest@example.com", password_hash := "h",
    full_name := "Lock Test User", role := .student, is_active := true,
    failed_login_attempts := 4, locked_until := none, last_login := none,
    totp_secret := none, two_factor_enabled := false,
    backup_codes_generated_at := none }

/-- C6 witness: the policy evaluated at a user with four prior failures
and `now = 100`. -/
theorem c6_lockout_policy_witness :
    (nearThresholdUser.increment_failed_login_attempts 100).failed_login_attempts = 5
  ∧ (nearThresholdUser.increment_failed_login_attempts 100).locked_until =
      some (100 + 30 * 60)
  ∧ (nearThresholdUser.is_locked 100 = true ↔
      ∃ t, nearThresholdUser.locked_until = some t ∧ 100 < t) := by
  have h := c6_lockout_policy nearThresholdUser 100
  exact ⟨h.1.trans (by decide), h.2.1 (by decide), h.2.2.2.2⟩

/-- C10: once the counter is at 4 or more, every further `recordFailure`
pushes it past the threshold, so the `>= 5` re-lock condition fires and
stamps a fresh `locked_until = now + 30 minutes`; the freshly failed user
is locked for the whole 30-minute window (in particular immediately, so
one failure after an expired lock re-locks at once); the counter is never
reset by the policy itself (it strictly grows, staying non-zero), only
`recordSuccess` zeroes it. -/
theorem c10_counter_uncapped_relock (u : User) (now : Nat)
    (h : 4 ≤ u.failed_login_attempts) :
    (u.increment_failed_login_attempts now).locked_until = some (now + 30 * 60)
  ∧ (u.increment_failed_login_attempts now).failed_login_attempts =
      u.failed_login_attempts + 1
  ∧ (∀ t, t < now + 30 * 60 →
      (u.increment_failed_login_attempts now).is_locked t = true)
  ∧ (u.increment_failed_login_attempts now).is_locked now = true
  ∧ (u.increment_failed_login_attempts now).failed_login_attempts ≠ 0
  ∧ u.reset_failed_login_attempts.failed_login_attempts = 0 := by
  have hcond : u.failed_login_attempts + 1 ≥ 5 := by omega
  have hlock : (u.increment_failed_login_attempts now).locked_until =
      some (now + 30 * 60) := by
    simp only [User.increment_failed_login_attempts]
    rw [if_pos hcond]
  have hcount : (u.increment_failed_login_attempts now).failed_login_attempts =
      u.failed_login_attempts + 1 := by
    simp only [User.increment_failed_login_attempts]
    split <;> rfl
  refine ⟨hlock, hcount, ?_, ?_, by omega, rfl⟩
  · intro t ht
    unfold User.is_locked
    rw [hlock]
    simpa using ht
  · unfold User.is_locked
    rw [hlock]
    simp

/-- A user whose 30-minute lock has already expired at time 2000, with the
counter still at 5. -/
def expiredLockUser : User :=
  { nearThresholdUser with failed_login_attempts := 5, locked_until := some 1900 }

/-- C10 witness: the lock set at time 100 has expired by 2000, yet a
single further failure at 2000 re-locks until 2000 + 30 minutes. -/
theorem c10_counter_uncapped_relock_witness :
    expiredLockUser.is_locked 2000 = false
  ∧ (expiredLockUser.increment_failed_login_attempts 2000).locked_until =
      some (2000 + 30 * 60)
  ∧ (expiredLockUser.increment_failed_login_attempts 2000).is_locked 2000 = true
  ∧ (expiredLockUser.increment_failed_login_attempts 2000).failed_login_attempts = 6 := by
  have h := c10_counter_uncapped_relock expiredLockUser 2000 (by decide)
  exact ⟨by decide, h.1, h.2.2.2.1, h.2.1.trans (by decide)⟩

/-- An expired but correctly signed access token (`exp = 100`). -/
def expiredToken : Token :=
  { payload := { exp := 100, iat := 0, sub := 1, type := "access", jti := none },
    key := secretKey }

/-- A token signed with a different key (bad signature). -/
def forgedToken : Token :=
  { payload := { exp := 900, iat := 0, sub := 1, type := "access", jti := none },
    key := secretKey + 1 }

/-- C5 counterexample: the three failure causes surface three pairwise
distinct messages — expiry gives "Token has expired", a bad signature
gives "Invalid token", and a type mismatch gives an "Invalid token type"
message that even echoes both types — so the error surfaced is not the
same generic "invalid token" message regardless of cause. -/
theorem c5_token_errors_counterexample :
    decode_token expiredToken 100 = .error ⟨"Token has expired"⟩
  ∧ decode_token forgedToken 100 = .error ⟨"Invalid token"⟩
  ∧ verify_token_type expiredToken.payload "refresh" =
      .error ⟨"Invalid token type. Expected refresh, got access"⟩
  ∧ (⟨"Token has expired"⟩ : AuthErr) ≠ ⟨"Invalid token"⟩
  ∧ (⟨"Invalid token type. Expected refresh, got access"⟩ : AuthErr) ≠ ⟨"Invalid token"⟩ := by
  refine ⟨?_, by decide, ?_, by decide, by decide⟩
  · decide
  · decide

/-- C5 amended: every failing decode or type check surfaces an `AuthError`
(the boundary maps them all to HTTP 401), but the message distinguishes
the cause: bad signature → "Invalid token", expiry → "Token has expired",
type mismatch → "Invalid token type. Expected {expected}, got {got}". -/
theorem c5_token_errors_by_cause (t : Token) (p : TokenPayload)
    (expected : String) (now : Nat) :
    (t.key ≠ secretKey → decode_token t now = .error ⟨"Invalid token"⟩)
  ∧ (t.key = secretKey → t.payload.exp ≤ now →
      decode_token t now = .error ⟨"Token has expired"⟩)
  ∧ (p.type ≠ expected →
      verify_token_type p expected =
        .error ⟨"Invalid token type. Expected " ++ expected ++ ", got " ++ p.type⟩) := by
  refine ⟨fun hk => ?_, fun hk he => ?_, fun ht => ?_⟩
  · unfold decode_token
    rw [if_pos hk]
  · unfold decode_token
    rw [if_neg (by simp [hk]), if_pos he]
  · unfold verify_token_type
    rw [if_pos ht]

/-- C5 amended witness: the three causes at the concrete tokens. -/
theorem c5_token_errors_by_cause_witness :
    decode_token forgedToken 100 = .error ⟨"Invalid token"⟩
  ∧ decode_token expiredToken 100 = .error ⟨"Token has expired"⟩
  ∧ verify_token_type expiredToken.payload "refresh" =
      .error ⟨"Invalid token type. Expected refresh, got access"⟩ := by
  have h1 := (c5_token_errors_by_cause forgedToken expiredToken.payload "refresh" 100).1
    (by decide)
  have h2 := (c5_token_errors_by_cause expiredToken expiredToken.payload "refresh" 100).2.1
    (by decide) (by decide)
  have h3 := (c5_token_errors_by_cause expiredToken expiredToken.payload "refresh" 100).2.2
    (by decide)
  exact ⟨h1, h2, h3⟩

/-- C7: an access token minted for subject `id` with lifetime `ttl` at
time `t0` decodes, at any `now` strictly before `t0 + ttl`, to a payload
whose subject is exactly `id` (the source's `sub` is `str(id)`; the
embedding identifies the decimal string with the natural) and whose type
is `"access"`; once `now > t0 + ttl` the decode fails with the
"Token has expired" error.  PyJWT's expiry check (`exp <= now`) also
rejects the boundary instant itself. -/
theorem c7_access_token_roundtrip (id ttl t0 now : Nat) :
    (now < t0 + ttl →
      decode_token (create_access_token id (some ttl) t0) now =
        .ok { exp := t0 + ttl, iat := t0, sub := id, type := "access", jti := none })
  ∧ (t0 + ttl ≤ now →
      decode_token (create_access_token id (some ttl) t0) now =
        .error ⟨"Token has expired"⟩) := by
  constructor
  · intro h
    unfold decode_token create_access_token
    rw [if_neg (by simp [secretKey]), if_neg (by simpa using Nat.not_le.mpr h)]
  · intro h
    unfold decode_token create_access_token
    rw [if_neg (by simp [secretKey]), if_pos (by simpa using h)]

/-- C7 witness: subject 7, lifetime 60 seconds, minted at `t0 = 0`;
decoding at `now = 30` yields the payload with subject 7 and type
"access", and decoding at `now = 61` fails as expired. -/
theorem c7_access_token_roundtrip_witness :
    decode_token (create_access_token 7 (some 60) 0) 30 =
      .ok { exp := 60, iat := 0, sub := 7, type := "access", jti := none }
  ∧ decode_token (create_access_token 7 (some 60) 0) 61 =
      .error ⟨"Token has expired"⟩ := by
  exact ⟨(c7_access_token_roundtrip 7 60 0 30).1 (by decide),
         (c7_access_token_roundtrip 7 60 0 61).2 (by decide)⟩

theorem listContains_iff (needle : List Char) (hay : List Char) :
    listContains needle hay = true ↔ needle <:+: hay := by
  induction hay with
  | nil =>
    simp [listContains, List.isEmpty_iff, List.infix_nil]
  | cons c rest ih =>
    simp only [listContains, Bool.or_eq_true, ih, List.infix_cons_iff,
      List.isPrefixOf_iff_prefix]

theorem replicate_four {α : Type} (c : α) : List.replicate 4 c = [c, c, c, c] := rfl

theorem hasRun4_iff (l : List Char) :
    hasRun4 l = true ↔ ∃ c, List.replicate 4 c <:+: l := by
  induction l with
  | nil => simp [hasRun4, replicate_four, List.infix_nil]
  | cons a tl ih =>
    match tl with
    | [] =>
      simp [hasRun4, replicate_four, List.infix_cons_iff, List.cons_prefix_cons,
        List.infix_nil, List.prefix_nil]
    | [b] =>
      simp [hasRun4, replicate_four, List.infix_cons_iff, List.cons_prefix_cons,
        List.infix_nil, List.prefix_nil]
    | [b, c] =>
      simp [hasRun4, replicate_four, List.infix_cons_iff, List.cons_prefix_cons,
        List.infix_nil, List.prefix_nil]
    | b :: c :: d :: rest =>
      rw [show hasRun4 (a :: b :: c :: d :: rest) =
            ((a == b && b == c && c == d) || hasRun4 (b :: c :: d :: rest)) from rfl]
      rw [Bool.or_eq_true, ih]
      constructor
      · rintro (h | ⟨x, hx⟩)
        · simp only [Bool.and_eq_true, beq_iff_eq] at h
          have h1 : a = b := by tauto
          have h2 : b = c := by tauto
          have h3 : c = d := by tauto
          refine ⟨a, List.IsPrefix.isInfix ?_⟩
          rw [replicate_four]
          subst h3; subst h2; subst h1
          exact ⟨rest, rfl⟩
        · exact ⟨x, List.infix_cons_iff.mpr (Or.inr hx)⟩
      · rintro ⟨x, hx⟩
        rw [replicate_four, List.infix_cons_iff] at hx
        rcases hx with hpre | hinf
        · left
          rw [List.cons_prefix_cons] at hpre
          obtain ⟨e1, hpre⟩ := hpre
          rw [List.cons_prefix_cons] at hpre
          obtain ⟨e2, hpre⟩ := hpre
          rw [List.cons_prefix_cons] at hpre
          obtain ⟨e3, hpre⟩ := hpre
          rw [List.cons_prefix_cons] at hpre
          obtain ⟨e4, -⟩ := hpre
          subst e1
          simp [← e2, ← e3, ← e4]
        · right
          exact ⟨x, by rw [replicate_four]; exact hinf⟩

theorem listContains_false_iff (needle hay : List Char) :
    listContains needle hay = false ↔ ¬ needle <:+: hay := by
  rw [Bool.eq_false_iff, Ne, listContains_iff]

theorem hasRun4_false_iff (l : List Char) :
    hasRun4 l = false ↔ ∀ c, ¬ List.replicate 4 c <:+: l := by
  rw [Bool.eq_false_iff, Ne, hasRun4_iff]
  exact not_exists

/-- The password strength policy as the spec states it (§4.4.1): length
between 8 and 128; an uppercase, a lowercase, a digit and a
non-alphanumeric character present; no banned word as a case-insensitive
substring; not one of the listed common numeric passwords; and no run of
four or more identical consecutive characters (equivalently: no window of
four identical characters occurs). -/
def specPasswordOk (p : String) : Prop :=
  8 ≤ p.length ∧ p.length ≤ 128
  ∧ (∃ c ∈ p.data, c.isUpper = true)
  ∧ (∃ c ∈ p.data, c.isLower = true)
  ∧ (∃ c ∈ p.data, c.isDigit = true)
  ∧ (∃ c ∈ p.data, c.isAlphanum = false)
  ∧ (∀ w ∈ common_substrings, ¬ w.data <:+: (strLower p).data)
  ∧ (∀ w ∈ common_passwords, strLower p ≠ w)
  ∧ ∀ c, ¬ List.replicate 4 c <:+: p.data

/-- C9: the registration password gate accepts exactly the passwords
satisfying the spec's policy, and behaves as claimed on the eight listed
vectors. -/
theorem c9_password_policy :
    (∀ p, passwordAccepted p = true ↔ specPasswordOk p)
  ∧ passwordAccepted "short" = false
  ∧ passwordAccepted "alllowercase1!" = false
  ∧ passwordAccepted "ALLUPPER1!" = false
  ∧ passwordAccepted "NoDigits!" = false
  ∧ passwordAccepted "NoSpecial123" = false
  ∧ passwordAccepted "MyAdmin123!" = false
  ∧ passwordAccepted "Aaaaa123!" = false
  ∧ passwordAccepted "StrongSecret123!" = true := by
  refine ⟨?_, by decide, by decide, by decide, by decide, by decide, by decide,
    by decide, by decide⟩
  intro p
  unfold passwordAccepted validate_password specPasswordOk
  simp only [Bool.and_eq_true, decide_eq_true_eq, Bool.not_eq_true',
    List.any_eq_true, List.any_eq_false, Ne,
    listContains_false_iff, listContains_iff, hasRun4_false_iff, beq_iff_eq,
    common_substrings, common_passwords, List.forall_mem_cons, List.mem_cons,
    List.not_mem_nil, List.mem_singleton, or_false, List.forall_mem_nil]
  tauto

/-- A user who has initiated but not completed 2FA setup. -/
def pending2faUser : User :=
  { id := 1, email := "twofa@example.com",
    password_hash := hash_password "StrongSecret123!", full_name := "Two FA",
    role := .student, is_active := true, failed_login_attempts := 0,
    locked_until := none, last_login := none,
    totp_secret := some "BASE32SECRETBASE", two_factor_enabled := false,
    backup_codes_generated_at := none }

/-- Database holding only `pending2faUser`. -/
def pending2faDb : Db :=
  { users := [pending2faUser], sessions := [], recovery_codes := [],
    nextUserId := 2, nextSessionId := 1 }

/-- Ten backup codes in the generator's `XXXX-XXXX` uppercase-hex shape. -/
def demoBackupCodes : List String :=
  ["11AA-22BB", "33CC-44DD", "55EE-66FF", "77AB-88CD", "99EF-00AB",
   "AA11-BB22", "CC33-DD44", "EE55-FF66", "AB77-CD88", "EF99-AB00"]

/-- C3 (code bug): `verify_backup_code` returns `false` for every input,
and a successful `complete_2fa_setup` hands the generated codes back to
the caller while writing nothing into `user_recovery_codes` — so no
generated backup code is ever redeemable, let alone exactly once. -/
theorem c3_backup_codes_unusable :
    (∀ db uid code, verify_backup_code db uid code = false)
  ∧ (∀ db uid totpOk codes now db' out,
      complete_2fa_setup db uid totpOk codes now = .ok (db', out) →
        out = codes ∧ db'.recovery_codes = db.recovery_codes
        ∧ ∀ c ∈ codes, verify_backup_code db' uid c = false) := by
  refine ⟨fun _ _ _ => rfl, fun db uid totpOk codes now db' out h => ?_⟩
  unfold complete_2fa_setup at h
  split at h
  · simp at h
  · split at h
    · simp at h
    · split at h
      · simp at h
      · split at h
        · simp at h
        · rw [Except.ok.injEq, Prod.mk.injEq] at h
          obtain ⟨hdb, hout⟩ := h
          subst hdb
          exact ⟨hout.symm, rfl, fun _ _ => rfl⟩

/-- The state after the successful 2FA completion for `pending2faUser`. -/
def after2faDb : Db :=
  updateUser pending2faDb
    { pending2faUser with two_factor_enabled := true,
                          backup_codes_generated_at := some 500 }

/-- C3 witness: completing setup at time 500 with a passing TOTP check
returns the ten codes, leaves `user_recovery_codes` empty, and the first
returned code is not redeemable. -/
theorem c3_backup_codes_unusable_witness :
    complete_2fa_setup pending2faDb 1 true demoBackupCodes 500 =
      .ok (after2faDb, demoBackupCodes)
  ∧ after2faDb.recovery_codes = pending2faDb.recovery_codes
  ∧ verify_backup_code after2faDb 1 "11AA-22BB" = false := by
  have hsetup : complete_2fa_setup pending2faDb 1 true demoBackupCodes 500 =
      .ok (after2faDb, demoBackupCodes) := by decide
  have h := c3_backup_codes_unusable.2 pending2faDb 1 true demoBackupCodes 500
    after2faDb demoBackupCodes hsetup
  exact ⟨hsetup, h.2.1, h.2.2 "11AA-22BB" (by decide)⟩

/-- The registered user of the lockout scenario (the repository's own
`test_account_locking_after_failed_attempts` registers this account and
expects the sixth attempt to report a locked account). -/
def lockTestUser : User :=
  { id := 1, email := "locktest@example.com",
    password_hash := hash_password "StrongSecret123!",
    full_name := "Lock Test User", role := .student, is_active := true,
    failed_login_attempts := 0, locked_until := none, last_login := none,
    totp_secret := none, two_factor_enabled := false,
    backup_codes_generated_at := none }

/-- Database holding only `lockTestUser`. -/
def lockTestDb : Db :=
  { users := [lockTestUser], sessions := [], recovery_codes := [],
    nextUserId := 2, nextSessionId := 1 }

/-- One failed login attempt with the wrong password at time 1000
(state after the rolled-back transaction). -/
def failedAttemptStep (db : Db) : Db :=
  afterLogin db "locktest@example.com" "wrongsecret" none none 1000

/-- `lockTestUser` but already at 7 failed attempts and explicitly locked
until time 1000000. -/
def lockedOutUser : User :=
  { lockTestUser with failed_login_attempts := 7, locked_until := some 1000000 }

/-- Database holding only `lockedOutUser`. -/
def lockedOutDb : Db :=
  { lockTestDb with users := [lockedOutUser] }

/-- C1 (code bug): `login_user` never invokes the lockout policy.  Five
consecutive wrong-password attempts each fail with "Invalid credentials"
but leave the state — in particular `failed_login_attempts = 0` and
`locked_until = None` — completely unchanged, so the sixth attempt with
the correct password succeeds instead of failing with an account-locked
error; and even a user who is explicitly locked (`is_locked = true`) logs
in successfully, with the counter still at 7 afterwards (`recordSuccess`
is never invoked either). -/
theorem c1_lockout_never_engaged :
    login_user lockTestDb "locktest@example.com" "wrongsecret" none none 1000 =
      .error ⟨"Invalid credentials"⟩
  ∧ failedAttemptStep^[5] lockTestDb = lockTestDb
  ∧ (failedAttemptStep^[5] lockTestDb).users = [lockTestUser]
  ∧ lockTestUser.failed_login_attempts = 0
  ∧ lockTestUser.locked_until = none
  ∧ (login_user (failedAttemptStep^[5] lockTestDb) "locktest@example.com"
      "StrongSecret123!" none none 1000).isOk = true
  ∧ lockedOutUser.is_locked 1000 = true
  ∧ (login_user lockedOutDb "locktest@example.com" "StrongSecret123!"
      none none 1000).isOk = true
  ∧ (afterLogin lockedOutDb "locktest@example.com" "StrongSecret123!"
      none none 1000).users = [{ lockedOutUser with last_login := some 1000 }] := by
  decide

theorem charToLower_toNat_of_upper (c : Char) (h : c.toNat ≥ 65 ∧ c.toNat ≤ 90) :
    c.toLower.toNat = c.toNat + 32 := by
  have hv : (c.toNat + 32).isValidChar := Or.inl (by omega)
  simp only [Char.toLower]
  rw [if_pos h]
  unfold Char.ofNat
  rw [dif_pos hv]
  rfl

theorem charToLower_of_not_upper (c : Char) (h : ¬ (c.toNat ≥ 65 ∧ c.toNat ≤ 90)) :
    c.toLower = c := by
  simp only [Char.toLower]
  rw [if_neg h]

theorem charToLower_idem (c : Char) : c.toLower.toLower = c.toLower := by
  by_cases h : c.toNat ≥ 65 ∧ c.toNat ≤ 90
  · have ht := charToLower_toNat_of_upper c h
    exact charToLower_of_not_upper _ (by rw [ht]; omega)
  · rw [charToLower_of_not_upper c h, charToLower_of_not_upper c h]

theorem isWhitespace_of_toNat_large (c : Char) (h : 64 < c.toNat) :
    c.isWhitespace = false := by
  have hs : (' ' : Char).toNat = 32 := rfl
  have htb : ('\t' : Char).toNat = 9 := rfl
  have hcr : ('\x0d' : Char).toNat = 13 := rfl
  have hnl : ('\n' : Char).toNat = 10 := rfl
  have hne : ∀ (e : Char), c.toNat ≠ e.toNat → (c = e) = False := by
    intro e hn
    simp only [eq_iff_iff, iff_false]
    exact fun heq => hn (congrArg Char.toNat heq)
  simp only [Char.isWhitespace]
  rw [decide_eq_false (fun heq => by rw [hne ' ' (by omega)] at heq; exact heq),
      decide_eq_false (fun heq => by rw [hne '\t' (by omega)] at heq; exact heq),
      decide_eq_false (fun heq => by rw [hne '\x0d' (by omega)] at heq; exact heq),
      decide_eq_false (fun heq => by rw [hne '\n' (by omega)] at heq; exact heq)]
  rfl

theorem isWhitespace_toLower (c : Char) :
    c.toLower.isWhitespace = c.isWhitespace := by
  by_cases h : c.toNat ≥ 65 ∧ c.toNat ≤ 90
  · have ht := charToLower_toNat_of_upper c h
    rw [isWhitespace_of_toNat_large _ (by rw [ht]; omega),
        isWhitespace_of_toNat_large _ (by omega)]
  · rw [charToLower_of_not_upper c h]

theorem trimChars_map_toLower (l : List Char) :
    trimChars (l.map Char.toLower) = (trimChars l).map Char.toLower := by
  have hcomp : (Char.isWhitespace ∘ Char.toLower) = Char.isWhitespace := by
    funext c
    exact isWhitespace_toLower c
  unfold trimChars
  rw [List.dropWhile_map, hcomp, ← List.map_reverse, List.dropWhile_map, hcomp,
    ← List.map_reverse]

theorem strLower_strTrim (s : String) :
    strLower (strTrim s) = strTrim (strLower s) := by
  simp only [strLower, strTrim]
  rw [trimChars_map_toLower]

theorem strLower_idem (s : String) : strLower (strLower s) = strLower s := by
  simp only [strLower, List.map_map]
  congr 1
  exact List.map_congr_left (fun c _ => charToLower_idem c)

/-- A normalized email is a fixed point of lowercasing, so the service's
second `email.lower()` in `get_user_by_email` is the identity on stored
emails. -/
theorem strLower_normalize_email (e : String) :
    strLower (normalize_email e) = normalize_email e := by
  unfold normalize_email
  rw [strLower_strTrim, strLower_idem]

/-- The registration pre-check fires whenever its snapshot holds a user
whose stored email equals the lowercased requested email. -/
theorem register_user_error_of_precheck (precheck : List User) (db : Db)
    (r : UserRegisterRequest) (ua ip : Option String) (t : Nat) (u : User)
    (hm : u ∈ precheck) (he : u.email = strLower r.email) :
    register_user precheck db r ua ip t = .error ⟨"Email already registered"⟩ := by
  cases hf : precheck.find? (fun x => x.email == strLower r.email) with
  | none =>
    exact absurd (beq_iff_eq.mpr he) (List.find?_eq_none.mp hf u hm)
  | some w =>
    unfold register_user
    rw [hf]

/-- When the pre-check snapshot misses but the authoritative state already
holds a row with the identical stored email, the uniqueness constraint
raises and registration surfaces the same "Email already registered". -/
theorem register_user_error_of_constraint (precheck : List User) (db : Db)
    (r : UserRegisterRequest) (ua ip : Option String) (t : Nat) (u : User)
    (hpre : precheck.find? (fun x => x.email == strLower r.email) = none)
    (hm : u ∈ db.users) (he : u.email = r.email) :
    register_user precheck db r ua ip t = .error ⟨"Email already registered"⟩ := by
  unfold register_user
  rw [hpre]
  dsimp only
  have hc : (db.users.any fun x => x.email == r.email) = true :=
    List.any_eq_true.mpr ⟨u, hm, beq_iff_eq.mpr he⟩
  rw [if_pos hc]

/-- C8: after a registration for `r1` succeeds, a second registration
whose raw email differs only by letter case fails with
"Email already registered" — both when the pre-check snapshot already
sees the committed user (`db1.users`) and when it raced against a stale
snapshot (`db.users`) and only the storage-layer uniqueness constraint
catches the duplicate — and in both cases the rolled-back state after the
failing call is exactly the state `db1` left by the first call: no user
or session row is added. -/
theorem c8_case_insensitive_duplicate_email (db : Db)
    (r1 r2 : UserRegisterRequest) (ua1 ip1 ua2 ip2 : Option String)
    (t1 t2 : Nat) (db1 : Db) (u1 : User) (at1 rt1 : Token)
    (hcase : strLower r1.email = strLower r2.email)
    (h1 : register_user db.users db (validatedRequest r1) ua1 ip1 t1 =
      .ok (db1, u1, at1, rt1)) :
    register_user db1.users db1 (validatedRequest r2) ua2 ip2 t2 =
      .error ⟨"Email already registered"⟩
  ∧ register_user db.users db1 (validatedRequest r2) ua2 ip2 t2 =
      .error ⟨"Email already registered"⟩
  ∧ afterRegister db1.users db1 (validatedRequest r2) ua2 ip2 t2 = db1
  ∧ afterRegister db.users db1 (validatedRequest r2) ua2 ip2 t2 = db1 := by
  have hnorm : normalize_email r1.email = normalize_email r2.email :=
    congrArg strTrim hcase
  have hv1 : (validatedRequest r1).email = normalize_email r1.email := rfl
  have hv2 : (validatedRequest r2).email = normalize_email r2.email := rfl
  unfold register_user at h1
  split at h1
  · exact absurd h1 (by simp)
  rename_i hfind
  split at h1
  · exact absurd h1 (by simp)
  rename_i hany
  simp only [Except.ok.injEq, Prod.mk.injEq] at h1
  obtain ⟨hdb, -, -, -⟩ := h1
  -- the committed user row of the first registration
  have hmem : ∃ u ∈ db1.users, u.email = normalize_email r1.email := by
    rw [← hdb]
    refine ⟨_, List.mem_append_right _ (List.mem_singleton_self _), hv1 ▸ rfl⟩
  obtain ⟨uc, hucmem, hucemail⟩ := hmem
  have heq2 : strLower (validatedRequest r2).email = normalize_email r1.email := by
    rw [hv2, strLower_normalize_email, hnorm]
  have goal1 : register_user db1.users db1 (validatedRequest r2) ua2 ip2 t2 =
      .error ⟨"Email already registered"⟩ :=
    register_user_error_of_precheck _ _ _ _ _ _ uc hucmem (by rw [heq2, hucemail])
  have hpre2 : db.users.find?
      (fun x => x.email == strLower (validatedRequest r2).email) = none := by
    rw [show (fun x : User => x.email == strLower (validatedRequest r2).email) =
          (fun x : User => x.email == strLower (validatedRequest r1).email) from ?_]
    · exact hfind
    · funext x
      rw [heq2, hv1, strLower_normalize_email]
  have goal2 : register_user db.users db1 (validatedRequest r2) ua2 ip2 t2 =
      .error ⟨"Email already registered"⟩ := by
    refine register_user_error_of_constraint _ _ _ _ _ _ uc hpre2 hucmem ?_
    rw [hv2, ← hnorm, hucemail]
  refine ⟨goal1, goal2, ?_, ?_⟩
  · unfold afterRegister
    rw [goal1]
  · unfold afterRegister
    rw [goal2]

/-- An empty database. -/
def emptyDb : Db :=
  { users := [], sessions := [], recovery_codes := [],
    nextUserId := 1, nextSessionId := 1 }

/-- First registration request, mixed-case email. -/
def aliceReq1 : UserRegisterRequest :=
  { email := "Alice@Example.com", password := "StrongSecret123!",
    full_name := "Alice", role := .student }

/-- Second registration request: same email up to letter case. -/
def aliceReq2 : UserRegisterRequest :=
  { email := "alice@example.COM", password := "StrongSecret123!",
    full_name := "Alice Again", role := .student }

/-- The user row committed by the first registration. -/
def aliceUser : User :=
  { id := 1, email := "alice@example.com",
    password_hash := hash_password "StrongSecret123!", full_name := "Alice",
    role := .student, is_active := true, failed_login_attempts := 0,
    locked_until := none, last_login := none, totp_secret := none,
    two_factor_enabled := false, backup_codes_generated_at := none }

/-- The initial session committed by the first registration (time 10). -/
def aliceSession : Session :=
  { id := 1, user_id := 1,
    refresh_token_hash := hash_refresh_token (encodeToken (create_refresh_token 1 1 10)),
    user_agent := none, ip_address := none,
    expires_at := 10 + refreshTokenExpiresDays * 86400,
    is_active := true, revoked_at := none }

/-- State after the first registration. -/
def aliceDb1 : Db :=
  { users := [aliceUser], sessions := [aliceSession], recovery_codes := [],
    nextUserId := 2, nextSessionId := 2 }

/-- C8 witness: registering `Alice@Example.com` into an empty database
succeeds; registering `alice@example.COM` afterwards fails with "Email
already registered" on both the pre-check path and the constraint path,
leaving the state exactly `aliceDb1`. -/
theorem c8_case_insensitive_duplicate_email_witness :
    register_user emptyDb.users emptyDb (validatedRequest aliceReq1) none none 10 =
      .ok (aliceDb1, aliceUser, create_access_token 1 none 10,
           create_refresh_token 1 1 10)
  ∧ register_user aliceDb1.users aliceDb1 (validatedRequest aliceReq2) none none 20 =
      .error ⟨"Email already registered"⟩
  ∧ register_user emptyDb.users aliceDb1 (validatedRequest aliceReq2) none none 20 =
      .error ⟨"Email already registered"⟩
  ∧ afterRegister aliceDb1.users aliceDb1 (validatedRequest aliceReq2) none none 20 =
      aliceDb1
  ∧ afterRegister emptyDb.users aliceDb1 (validatedRequest aliceReq2) none none 20 =
      aliceDb1 := by
  have hreg : register_user emptyDb.users emptyDb (validatedRequest aliceReq1)
      none none 10 =
      .ok (aliceDb1, aliceUser, create_access_token 1 none 10,
           create_refresh_token 1 1 10) := by decide
  have h := c8_case_insensitive_duplicate_email emptyDb aliceReq1 aliceReq2
    none none none none 10 20 aliceDb1 aliceUser
    (create_access_token 1 none 10) (create_refresh_token 1 1 10)
    (by decide) hreg
  exact ⟨hreg, h.1, h.2.1, h.2.2.1, h.2.2.2⟩

theorem find?_map_update (l : List Session) (p : Session → Bool) (S S' : Session)
    (h : l.find? p = some S) (hid : S'.id = S.id) (hp : p S' = true) :
    (l.map (fun s => if s.id == S'.id then S' else s)).find? p = some S' := by
  induction l with
  | nil => simp at h
  | cons a tl ih =>
    cases hpa : p a with
    | true =>
      rw [List.find?_cons_of_pos _ hpa] at h
      have ha : a = S := by injection h
      subst ha
      have hbeq : (a.id == S'.id) = true := beq_iff_eq.mpr hid.symm
      simp only [List.map_cons, hbeq, if_true]
      exact List.find?_cons_of_pos _ hp
    | false =>
      rw [List.find?_cons_of_neg _ (by simp [hpa])] at h
      simp only [List.map_cons]
      by_cases haid : a.id = S'.id
      · rw [if_pos (beq_iff_eq.mpr haid)]
        exact List.find?_cons_of_pos _ hp
      · rw [if_neg (by simpa using haid)]
        rw [List.find?_cons_of_neg _ (by simp [hpa])]
        exact ih h

theorem updMeta_idem (s : Session) (ua ip : Option String) :
    updMeta (updMeta s ua ip) ua ip = updMeta s ua ip := by
  cases ua <;> cases ip <;> rfl

/-- `refresh_access_token` on a well-signed, unexpired refresh token
minted for subject `uid` and session id `sid`: the decode, the type
check and the jti extraction all succeed, and the outcome is decided by
the session lookup, the session expiry check, the stored-hash check and
the user check, exactly in the source's order. -/
theorem refresh_access_token_unfolded (db : Db) (uid sid t0 now : Nat)
    (ua ip : Option String)
    (hfresh : now < t0 + refreshTokenExpiresDays * 86400) :
    refresh_access_token db (create_refresh_token uid sid t0) ua ip now =
      (match db.sessions.find? (fun s => s.user_id == uid && s.id == sid && s.is_active) with
       | none => .error ⟨"Invalid refresh token"⟩
       | some session =>
         if session.is_expired now then .error ⟨"Invalid refresh token"⟩
         else if ¬ verify_refresh_token (encodeToken (create_refresh_token uid sid t0))
             session.refresh_token_hash then
           .error ⟨"Invalid refresh token"⟩
         else
           match get_user_by_id db uid with
           | none => .error ⟨"User not found or inactive"⟩
           | some user =>
             if ¬ user.is_active then .error ⟨"User not found or inactive"⟩
             else .ok (updateSession db (updMeta session ua ip),
                       create_access_token uid none now)) := by
  have hdec : decode_token (create_refresh_token uid sid t0) now = .ok
      { exp := t0 + refreshTokenExpiresDays * 86400, iat := t0, sub := uid,
        type := "refresh", jti := some sid } := by
    unfold decode_token create_refresh_token
    rw [if_neg (by simp [secretKey]), if_neg (by dsimp only; omega)]
  unfold refresh_access_token
  rw [hdec]
  rfl

/-- Success case of `refresh_access_token`: a valid token for a live
session of an active user yields a fresh access token for that user and
only touches the session's metadata. -/
theorem refresh_access_token_success (db : Db) (uid t0 now : Nat) (S : Session)
    (u : User) (ua ip : Option String)
    (hfresh : now < t0 + refreshTokenExpiresDays * 86400)
    (hfind : db.sessions.find?
      (fun s => s.user_id == uid && s.id == S.id && s.is_active) = some S)
    (hhash : S.refresh_token_hash =
      hash_refresh_token (encodeToken (create_refresh_token uid S.id t0)))
    (hnexp : ¬ S.expires_at < now)
    (huser : get_user_by_id db uid = some u)
    (hactive : u.is_active = true) :
    refresh_access_token db (create_refresh_token uid S.id t0) ua ip now =
      .ok (updateSession db (updMeta S ua ip), create_access_token uid none now) := by
  rw [refresh_access_token_unfolded db uid S.id t0 now ua ip hfresh, hfind]
  dsimp only
  have hexp : S.is_expired now = false := by
    unfold Session.is_expired
    exact decide_eq_false hnexp
  rw [if_neg (by simp [hexp])]
  have hver : verify_refresh_token
      (encodeToken (create_refresh_token uid S.id t0)) S.refresh_token_hash = true := by
    unfold verify_refresh_token verify_password
    rw [hhash]
    exact beq_self_eq_true _
  rw [if_neg (by simp [hver]), huser]
  dsimp only
  rw [if_neg (by simp [hactive])]

/-- C2: a refresh token minted for session `S` of user `uid` (its jti is
`S.id` and the session stores its hash), used while both token and
session are live and the user active, always returns a fresh access token
whose subject is `uid`; the call rewrites only the session's user-agent
and IP — id, stored hash, activity flag and expiry are untouched, and no
rotation occurs — so an immediate second use of the same token succeeds
with the same outcome; if instead the lookup finds no active session with
that id for that user, or the session is expired, or the token does not
match the stored hash, the call fails with "Invalid refresh token". -/
theorem c2_refresh_idempotent_non_rotation (db : Db) (uid t0 now : Nat)
    (S : Session) (u : User) (ua ip : Option String)
    (hfresh : now < t0 + refreshTokenExpiresDays * 86400) :
    (db.sessions.find?
        (fun s => s.user_id == uid && s.id == S.id && s.is_active) = some S →
      S.refresh_token_hash =
        hash_refresh_token (encodeToken (create_refresh_token uid S.id t0)) →
      ¬ S.expires_at < now →
      get_user_by_id db uid = some u →
      u.is_active = true →
        refresh_access_token db (create_refresh_token uid S.id t0) ua ip now =
          .ok (updateSession db (updMeta S ua ip), create_access_token uid none now)
      ∧ (updateSession db (updMeta S ua ip)).sessions.find?
          (fun s => s.user_id == uid && s.id == S.id && s.is_active) =
            some (updMeta S ua ip)
      ∧ (updMeta S ua ip).refresh_token_hash = S.refresh_token_hash
      ∧ (updMeta S ua ip).expires_at = S.expires_at
      ∧ (updMeta S ua ip).is_active = S.is_active
      ∧ (updMeta S ua ip).id = S.id
      ∧ refresh_access_token (updateSession db (updMeta S ua ip))
          (create_refresh_token uid S.id t0) ua ip now =
          .ok (updateSession (updateSession db (updMeta S ua ip)) (updMeta S ua ip),
               create_access_token uid none now))
  ∧ (db.sessions.find?
        (fun s => s.user_id == uid && s.id == S.id && s.is_active) = none →
      refresh_access_token db (create_refresh_token uid S.id t0) ua ip now =
        .error ⟨"Invalid refresh token"⟩)
  ∧ (db.sessions.find?
        (fun s => s.user_id == uid && s.id == S.id && s.is_active) = some S →
      S.expires_at < now →
      refresh_access_token db (create_refresh_token uid S.id t0) ua ip now =
        .error ⟨"Invalid refresh token"⟩)
  ∧ (db.sessions.find?
        (fun s => s.user_id == uid && s.id == S.id && s.is_active) = some S →
      ¬ S.expires_at < now →
      verify_refresh_token (encodeToken (create_refresh_token uid S.id t0))
        S.refresh_token_hash = false →
      refresh_access_token db (create_refresh_token uid S.id t0) ua ip now =
        .error ⟨"Invalid refresh token"⟩) := by
  refine ⟨fun hfind hhash hnexp huser hactive => ?_, fun hnone => ?_,
    fun hfind hexp => ?_, fun hfind hnexp hver => ?_⟩
  · have hok := refresh_access_token_success db uid t0 now S u ua ip hfresh
      hfind hhash hnexp huser hactive
    have hpS := List.find?_some hfind
    have hfind1 : (updateSession db (updMeta S ua ip)).sessions.find?
        (fun s => s.user_id == uid && s.id == S.id && s.is_active) =
          some (updMeta S ua ip) :=
      find?_map_update db.sessions _ S (updMeta S ua ip) hfind rfl hpS
    refine ⟨hok, hfind1, rfl, rfl, rfl, rfl, ?_⟩
    have hok2 := refresh_access_token_success (updateSession db (updMeta S ua ip))
      uid t0 now (updMeta S ua ip) u ua ip hfresh hfind1 hhash hnexp huser hactive
    rw [updMeta_idem] at hok2
    exact hok2
  · rw [refresh_access_token_unfolded db uid S.id t0 now ua ip hfresh, hnone]
  · rw [refresh_access_token_unfolded db uid S.id t0 now ua ip hfresh, hfind]
    dsimp only
    have hexpb : S.is_expired now = true := by
      unfold Session.is_expired
      exact decide_eq_true hexp
    rw [if_pos (by simp [hexpb])]
  · rw [refresh_access_token_unfolded db uid S.id t0 now ua ip hfresh, hfind]
    dsimp only
    have hexpb : S.is_expired now = false := by
      unfold Session.is_expired
      exact decide_eq_false hnexp
    rw [if_neg (by simp [hexpb]), if_pos (by simp [hver])]

/-- C2 witness: the refresh token minted at registration for
`aliceSession` (session 1 of user 1, minted at time 10) is exchanged for
a fresh access token at time 200, and immediately again — the second use
succeeds identically because nothing but session metadata changed. -/
theorem c2_refresh_idempotent_non_rotation_witness :
    refresh_access_token aliceDb1 (create_refresh_token 1 aliceSession.id 10)
      none none 200 =
      .ok (updateSession aliceDb1 (updMeta aliceSession none none),
           create_access_token 1 none 200)
  ∧ refresh_access_token (updateSession aliceDb1 (updMeta aliceSession none none))
      (create_refresh_token 1 aliceSession.id 10) none none 200 =
      .ok (updateSession (updateSession aliceDb1 (updMeta aliceSession none none))
             (updMeta aliceSession none none),
           create_access_token 1 none 200) := by
  have h := (c2_refresh_idempotent_non_rotation aliceDb1 1 10 200 aliceSession
    aliceUser none none (by decide)).1 (by decide) (by decide) (by decide)
    (by decide) (by decide)
  exact ⟨h.1, h.2.2.2.2.2.2⟩

end XUniv
